import Mathlib

/-! Verification of the lps-tracker repository (src/lpstracker.py, src/gitsearch.py).

The Python source is embedded shallowly: strings stay strings, Python's
truthiness of optional string fields becomes emptiness tests, Python
exceptions become `Except` errors, and the JIRA network client is a
parameter (a partial map from issue keys to issues).
-/

/-! Part: Python string primitives

Python's `str.startswith`, the substring operator `in`, and `split('\n')`
are modelled structurally on the character lists of the strings. -/

/-- Python truthiness of a string: `bool(s)` is `True` iff `s` is non-empty.
(`None` credential fields behave exactly like `''` here, so optional string
fields are modelled as `String` with `""` for absent.) -/
def truthy (s : String) : Bool :=
  !s.data.isEmpty

/-- Prefix test `charsPre p l` : the character list `p` is a prefix of `l`. -/
def charsPre : List Char → List Char → Bool
  | [], _ => true
  | _ :: _, [] => false
  | a :: as2, b :: bs => a == b && charsPre as2 bs

/-- Containment test `charsContains hay needle` : `needle` occurs as a contiguous run inside
`hay` (Python's `needle in hay` on strings). -/
def charsContains : List Char → List Char → Bool
  | [], needle => needle.isEmpty
  | c :: t, needle => charsPre needle (c :: t) || charsContains t needle

/-- Python `needle in hay` for strings: substring containment. -/
def strIn (needle hay : String) : Bool :=
  charsContains hay.data needle.data

/-- Python `s.startswith(pre)`. -/
def strStartsWith (s pre : String) : Bool :=
  charsPre pre.data s.data

/-- Python `s.split('\n')` on character lists: splits at every newline,
keeping empty pieces, so the result always has one more piece than there
are newlines. -/
def splitNl : List Char → List (List Char)
  | [] => [[]]
  | c :: rest =>
    let r := splitNl rest
    if c == '\n' then [] :: r
    else
      match r with
      | h :: t => (c :: h) :: t
      | [] => [[c]]

/-- Python `s.split('\n')` on strings. -/
def splitLines (s : String) : List String :=
  (splitNl s.data).map (fun l => ⟨l⟩)

/-! Part: CommitQueryBuilder

`get_ticket_flags` in src/lpstracker.py lines 5-21; the method
`GitSearcher._get_ticket_flags` in src/gitsearch.py lines 40-59 has the
identical body with `branch` read from the object.  The optional `branch`
is `Option String`; Python appends it only when it is truthy, so both
`none` and `some ""` append nothing. -/

/-- Embeds `get_ticket_flags(tickets, branch)`: one `--grep=<ticket>` flag per
ticket, then the branch when truthy. -/
def get_ticket_flags (tickets : List String) (branch : Option String) : List String :=
  let flags := tickets.map (fun ticket => "--grep=" ++ ticket)
  match branch with
  | some b => if truthy b then flags ++ [b] else flags
  | none => flags

/-! Part: Reconciler

The `__main__` block of src/gitsearch.py, lines 361-366: the raw log text
is split into lines by `get_commits` (line 36), the lines are joined back
with `''.join` (line 362), and a ticket is reported iff it is not a
substring of that joined text. -/

/-- Embeds `get_commits`: the raw `git log` output split on newlines
(src/gitsearch.py line 36). -/
def getCommits (raw : String) : List String :=
  splitLines raw

/-- Embeds `all_logs = ''.join(commits)` (src/gitsearch.py line 362). -/
def allLogs (commits : List String) : String :=
  String.join commits

/-- Embeds `not_found_issues = [issue for issue in related_issues if issue not in all_logs]`
(src/gitsearch.py lines 364-366). -/
def notFoundIssues (relatedIssues : List String) (commits : List String) : List String :=
  relatedIssues.filter (fun issue => !strIn issue (allLogs commits))

/-- The end-to-end reconciliation of a ticket list against the raw
commit-log text: split into lines, join with no separator, filter. -/
def reconcile (relatedIssues : List String) (raw : String) : List String :=
  notFoundIssues relatedIssues (getCommits raw)

/-! Part: Errors

One error universe for everything the embedded code can raise.  The code
itself only ever produces `jiraSearcherError` (the `JIRASearcherException`
messages), `attributeErrorNoneType` (dereferencing `self.jira` while it is
`None`), `keyError` (a missing dict key) and `issueNotFound` (the tracker
client's failure on an unknown key).  `sessionNotConnected` is the error the
spec names (`SessionNotConnectedError`); it is part of the universe so that
statements can say the code does not produce it. -/

inductive PyError where
  | jiraSearcherError (msg : String)
  | attributeErrorNoneType
  | keyError (k : String)
  | issueNotFound (k : String)
  | sessionNotConnected
  deriving DecidableEq

/-! Part: AuthResolver

`JIRASearcher.__init__` (src/gitsearch.py lines 74-84) validates the two
credential strategies via `_get_basic_auth_parameters` (lines 253-280) and
`_get_oauth_parameters` (lines 282-323); `_get_jira_parameters`
(lines 237-251) then resolves them into at most one auth mode. -/

structure OAuthParameters where
  access_token : String
  access_token_secret : String
  consumer_key : String
  key_cert : String
  deriving DecidableEq

inductive AuthMode where
  | anonymous
  | basic (username password : String)
  | oauth (params : OAuthParameters)
  deriving DecidableEq

/-- Embeds `_get_basic_auth_parameters` (src/gitsearch.py lines 253-280):
`any` of the pair truthy but not `all` raises; `all` truthy returns the
pair; otherwise `None`. -/
def getBasicAuthParameters (username password : String) :
    Except PyError (Option (String × String)) :=
  if (truthy username || truthy password) && !(truthy username && truthy password) then
    .error (.jiraSearcherError
      "Some, but not all, parameters passed to basic authentication")
  else if truthy username && truthy password then
    .ok (some (username, password))
  else
    .ok none

/-- Embeds `_get_oauth_parameters` (src/gitsearch.py lines 282-323): same shape
over the four OAuth fields. -/
def getOAuthParameters (access_token access_token_secret consumer_key key_cert : String) :
    Except PyError (Option OAuthParameters) :=
  let vals := [access_token, access_token_secret, consumer_key, key_cert]
  if vals.any truthy && !(vals.all truthy) then
    .error (.jiraSearcherError "Some, but not all, parameters passed to OAuth")
  else if vals.all truthy then
    .ok (some ⟨access_token, access_token_secret, consumer_key, key_cert⟩)
  else
    .ok none

/-- Embeds `_get_jira_parameters` (src/gitsearch.py lines 237-251), restricted to
the auth-mode part of the returned dict (the `'options'` entry only carries
the server URL): both strategies populated raises; otherwise OAuth wins,
then basic auth, then anonymous. -/
def getJiraParameters (basic : Option (String × String)) (oauth : Option OAuthParameters) :
    Except PyError AuthMode :=
  if basic.isSome && oauth.isSome then
    .error (.jiraSearcherError "Parameters given for both basic auth and OAuth")
  else
    match oauth with
    | some o => .ok (.oauth o)
    | none =>
      match basic with
      | some (u, p) => .ok (.basic u p)
      | none => .ok .anonymous

/-- The whole resolution path: `__init__` validates each strategy (basic
first, as in lines 80-83), then `_get_jira_parameters` picks the mode. -/
def resolveAuth (username password access_token access_token_secret consumer_key key_cert :
    String) : Except PyError AuthMode :=
  match getBasicAuthParameters username password with
  | .error e => .error e
  | .ok b =>
    match getOAuthParameters access_token access_token_secret consumer_key key_cert with
    | .error e => .error e
    | .ok o => getJiraParameters b o

/-! Part: TrackerSession and LinkExpander

`Issue` mirrors the shape the code reads off the JIRA client:
`issue.fields.issuelinks` is a list of link objects whose `.raw` dict has
an `'inwardIssue'` entry exactly when the link's direction is inward and an
`'outwardIssue'` entry exactly when it is outward (the JIRA REST format:
each link carries one of the two).  `rl['inwardIssue']` on a dict without
that key raises `KeyError`.  The connected client (`self.jira`) is a
partial map from issue keys to issues; `self.jira` is `None` before
`connect` and after `close`. -/

structure LinkedIssueRef where
  key : String
  deriving DecidableEq

structure RawLink where
  inwardIssue : Option LinkedIssueRef
  outwardIssue : Option LinkedIssueRef
  deriving DecidableEq

structure IssueFields where
  issuelinks : List RawLink
  deriving DecidableEq

structure Issue where
  key : String
  fields : IssueFields
  deriving DecidableEq

/-- An argument to `get_issue`: either an `Issue` object or a key string
(the `isinstance(issue, jira.client.Issue)` dichotomy). -/
inductive IssueOrKey where
  | obj (i : Issue)
  | key (k : String)
  deriving DecidableEq

/-- The connected JIRA client as a partial map from keys to issues. -/
abbrev JiraDb := String → Option Issue

/-- Embeds `self.jira.issue(key)`: the client returns the issue or raises on an
unknown key. -/
def clientIssue (db : JiraDb) (k : String) : Except PyError Issue :=
  match db k with
  | some i => .ok i
  | none => .error (.issueNotFound k)

/-- Embeds `get_issue` (src/gitsearch.py lines 104-106): an `Issue` object is
returned as-is; a key is looked up through `self.jira`, which is a `None`
dereference when no connection is open. -/
def get_issue (jira : Option JiraDb) (issue : IssueOrKey) : Except PyError Issue :=
  match issue with
  | .obj i => .ok i
  | .key k =>
    match jira with
    | none => .error .attributeErrorNoneType
    | some db => clientIssue db k

/-- Embeds `connect` (line 179): installs a client. -/
def connectSession (db : JiraDb) : Option JiraDb :=
  some db

/-- Embeds `close` (line 182): `self.jira = None`. -/
def closeSession (_ : Option JiraDb) : Option JiraDb :=
  none

/-- Embeds `get_issues` (line 119): `[self.get_issue(issue) for issue in issues]`;
the first failure aborts the comprehension. -/
def get_issues (jira : Option JiraDb) : List IssueOrKey → Except PyError (List Issue)
  | [] => .ok []
  | x :: xs =>
    match get_issue jira x with
    | .error e => .error e
    | .ok i =>
      match get_issues jira xs with
      | .error e => .error e
      | .ok rest => .ok (i :: rest)

/-- Embeds `[rl['inwardIssue'] for rl in raw_links]` (line 136): every link's raw
dict is indexed at `'inwardIssue'`, so a link without that entry (an
outward link) raises `KeyError` at the first such link. -/
def extractInwardIssues : List RawLink → Except PyError (List LinkedIssueRef)
  | [] => .ok []
  | rl :: rest =>
    match rl.inwardIssue with
    | none => .error (.keyError "inwardIssue")
    | some ii =>
      match extractInwardIssues rest with
      | .error e => .error e
      | .ok rest2 => .ok (ii :: rest2)

/-- Embeds `get_related_issues` (src/gitsearch.py lines 121-140): resolve the
issue, take `'inwardIssue'` of every link, then keep the keys passing
`not project or ii['key'].startswith(project)`. -/
def getRelatedIssues (jira : Option JiraDb) (issue : IssueOrKey) (project : String) :
    Except PyError (List String) :=
  match get_issue jira issue with
  | .error e => .error e
  | .ok issue2 =>
    match extractInwardIssues issue2.fields.issuelinks with
    | .error e => .error e
    | .ok inward_issues =>
      .ok (inward_issues.filterMap (fun ii =>
        if !truthy project || strStartsWith ii.key project then some ii.key else none))

/-- The body of the dict comprehension of `get_related_issues_dict`
(lines 157-160), one `(issue.key, related)` entry per resolved issue.
Python's dict collapses duplicate keys to one entry; the value recomputed
for a duplicate key is identical, so the association list keeps duplicates
without changing the set formed below. -/
def relatedIssuesEntries (jira : Option JiraDb) (project : String) :
    List Issue → Except PyError (List (String × List String))
  | [] => .ok []
  | i :: rest =>
    match getRelatedIssues jira (.key i.key) project with
    | .error e => .error e
    | .ok rel =>
      match relatedIssuesEntries jira project rest with
      | .error e => .error e
      | .ok es => .ok ((i.key, rel) :: es)

/-- Embeds `get_related_issues_dict` (lines 142-160): resolve all issues, then
build the per-key lists (note line 158 passes `issue.key`, so each issue is
looked up again through the session). -/
def getRelatedIssuesDict (jira : Option JiraDb) (issues : List IssueOrKey) (project : String) :
    Except PyError (List (String × List String)) :=
  match get_issues jira issues with
  | .error e => .error e
  | .ok resolved => relatedIssuesEntries jira project resolved

/-- Embeds `get_related_issues_set` (lines 162-176):
`set(itertools.chain(*dict.values()))`. -/
def getRelatedIssuesSet (jira : Option JiraDb) (issues : List IssueOrKey) (project : String) :
    Except PyError (Finset String) :=
  match getRelatedIssuesDict jira issues project with
  | .error e => .error e
  | .ok d => .ok ((d.map Prod.snd).flatten.toFinset)

/-- The project of an issue key, as the spec's data model defines it: the
substring before the first hyphen.  (This definition follows the spec's
words, for comparison with the code's `startswith` test.) -/
def keyProjectPart (k : String) : String :=
  ⟨k.data.takeWhile (fun c => !(c == '-'))⟩


/-- The list of keys retained from an issue's links when every link has an
`'inwardIssue'` entry: the inward targets, filtered by the code's
`not project or key.startswith(project)` test. -/
def relatedList (i : Issue) (project : String) : List String :=
  (i.fields.issuelinks.filterMap RawLink.inwardIssue).filterMap
    (fun ii => if !truthy project || strStartsWith ii.key project then some ii.key else none)

lemma extractInwardIssues_ok {ls : List RawLink}
    (h : ∀ l ∈ ls, l.inwardIssue.isSome) :
    extractInwardIssues ls = .ok (ls.filterMap RawLink.inwardIssue) := by
  induction ls with
  | nil => rfl
  | cons rl rest ih =>
    obtain ⟨ii, hii⟩ := Option.isSome_iff_exists.mp (h rl (by simp))
    have h2 : ∀ l ∈ rest, l.inwardIssue.isSome := fun l hl => h l (by simp [hl])
    simp [extractInwardIssues, hii, ih h2, List.filterMap_cons]

lemma getRelatedIssues_ok {db : JiraDb} {k : String} {i : Issue} {project : String}
    (hdb : db k = some i) (hlinks : ∀ l ∈ i.fields.issuelinks, l.inwardIssue.isSome) :
    getRelatedIssues (some db) (.key k) project = .ok (relatedList i project) := by
  simp [getRelatedIssues, get_issue, clientIssue, hdb,
    extractInwardIssues_ok hlinks, relatedList]

lemma mem_relatedList {i : Issue} {project x : String} :
    x ∈ relatedList i project
      ↔ ∃ l ∈ i.fields.issuelinks, ∃ ii, l.inwardIssue = some ii ∧ ii.key = x ∧
          (truthy project = false ∨ strStartsWith x project = true) := by
  constructor
  · intro hx
    obtain ⟨ii, hii, hif⟩ := List.mem_filterMap.mp hx
    obtain ⟨l, hl, hinw⟩ := List.mem_filterMap.mp hii
    split at hif
    case isTrue hcond =>
      obtain rfl : ii.key = x := Option.some.inj hif
      refine ⟨l, hl, ii, hinw, rfl, ?_⟩
      have hcond2 : truthy project = false ∨ strStartsWith ii.key project = true := by
        simpa using hcond
      exact hcond2
    case isFalse => cases hif
  · rintro ⟨l, hl, ii, hinw, rfl, hcond⟩
    refine List.mem_filterMap.mpr ⟨ii, List.mem_filterMap.mpr ⟨l, hl, hinw⟩, ?_⟩
    have hcond' : (!truthy project || strStartsWith ii.key project) = true := by
      rcases hcond with h1 | h2
      · simp [h1]
      · simp [h2]
    rw [if_pos hcond']

lemma get_issues_ok {db : JiraDb} {ks : List String}
    (h : ∀ k2 ∈ ks, (db k2).isSome) :
    get_issues (some db) (ks.map IssueOrKey.key) = .ok (ks.filterMap (fun k2 => db k2)) := by
  induction ks with
  | nil => rfl
  | cons k rest ih =>
    obtain ⟨i, hi⟩ := Option.isSome_iff_exists.mp (h k (by simp))
    have h2 : ∀ k2 ∈ rest, (db k2).isSome := fun k2 hk => h k2 (by simp [hk])
    simp [get_issues, get_issue, clientIssue, hi, ih h2, List.filterMap_cons]

lemma relatedIssuesEntries_ok {db : JiraDb} {project : String} {issues2 : List Issue}
    (hgood : ∀ i ∈ issues2, db i.key = some i)
    (hlinks : ∀ i ∈ issues2, ∀ l ∈ i.fields.issuelinks, l.inwardIssue.isSome) :
    relatedIssuesEntries (some db) project issues2
      = .ok (issues2.map (fun i => (i.key, relatedList i project))) := by
  induction issues2 with
  | nil => rfl
  | cons i rest ih =>
    have h1 := @getRelatedIssues_ok db i.key i project (hgood i (by simp)) (hlinks i (by simp))
    simp [relatedIssuesEntries, h1,
      ih (fun j hj => hgood j (by simp [hj])) (fun j hj => hlinks j (by simp [hj]))]

/-- A non-empty string has non-empty character data. -/
lemma data_isEmpty_false_of_ne {t : String} (h : t ≠ "") : t.data.isEmpty = false := by
  cases t with
  | mk l =>
    cases l with
    | nil => exact absurd rfl h
    | cons c cs => rfl

/-- C4: the builder `build` emits one `--grep=<ticket>` flag per ticket in input order,
then the branch exactly when it is non-empty; in particular
`build(["LPS-1","LPS-2"], "6.2.x") = ["--grep=LPS-1","--grep=LPS-2","6.2.x"]`
and `build([], None) = []`. -/
theorem commitQueryBuilder_build_spec :
    (∀ (tickets : List String) (b : String),
      get_ticket_flags tickets (some b)
        = tickets.map (fun t => "--grep=" ++ t) ++ (if truthy b then [b] else [])) ∧
    (∀ tickets : List String,
      get_ticket_flags tickets none = tickets.map (fun t => "--grep=" ++ t)) ∧
    get_ticket_flags ["LPS-1", "LPS-2"] (some "6.2.x")
      = ["--grep=LPS-1", "--grep=LPS-2", "6.2.x"] ∧
    get_ticket_flags ([] : List String) none = [] := by
  refine ⟨?_, fun tickets => rfl, rfl, rfl⟩
  intro tickets b
  by_cases h : truthy b = true <;> simp [get_ticket_flags, h]

/-- C2 (counterexample): the reconciliation result is not determined by
substring occurrence in the raw log text.  With ticket `LPS-1` and raw log
text `"LPS\n-1"`, the identifier does not occur in the log text, yet the
ticket is reported as found (excluded from the result), because the lines
are re-joined with no separator before the test. -/
theorem reconcile_not_raw_substring :
    strIn "LPS-1" "LPS\n-1" = false ∧ reconcile ["LPS-1"] "LPS\n-1" = [] := by
  exact ⟨by decide, by decide⟩

/-- C2 (amended): a ticket is in the result iff its identifier does not
occur as a substring of the concatenation of the log's lines with the
newline separators deleted (`''.join` of the split lines). -/
theorem reconcile_mem_iff (tickets : List String) (raw t : String) :
    t ∈ reconcile tickets raw
      ↔ t ∈ tickets ∧ strIn t (allLogs (getCommits raw)) = false := by
  simp [reconcile, notFoundIssues, List.mem_filter]

/-- C7: substring matching has no word boundaries: with only `LPS-10` in
the log (never `LPS-1` followed by a separator), the ticket `LPS-1` is
still reported as found, so the not-found result is empty. -/
theorem reconcile_substring_false_positive :
    strIn "LPS-10" "4748d69 LPS-10 Removing" = true ∧
    strIn "LPS-1 " "4748d69 LPS-10 Removing" = false ∧
    reconcile ["LPS-1"] "4748d69 LPS-10 Removing" = [] := by
  exact ⟨by decide, by decide, by decide⟩

/-- C8: the reconciler and the query builder are total functions of their
inputs: an empty ticket list reconciles to the empty list; any list of
(non-empty, as issue keys are) tickets reconciles against the empty log
text to the full list; and the builder on an empty ticket list yields only
the truthy branch, or nothing. -/
theorem reconcile_build_total (raw : String) (tickets : List String) (b : String) :
    reconcile [] raw = [] ∧
    ((∀ t ∈ tickets, t ≠ "") → reconcile tickets "" = tickets) ∧
    get_ticket_flags [] (some b) = (if truthy b then [b] else []) ∧
    get_ticket_flags [] none = [] := by
  refine ⟨rfl, ?_, ?_, rfl⟩
  · intro h
    have hall : ∀ t ∈ tickets, (!strIn t (allLogs (getCommits ""))) = true := by
      intro t ht
      have hne := h t ht
      have : strIn t (allLogs (getCommits "")) = t.data.isEmpty := rfl
      rw [this, data_isEmpty_false_of_ne hne]
      rfl
    exact List.filter_eq_self.mpr hall
  · by_cases h : truthy b = true <;> simp [get_ticket_flags, h]

/-- Witness for C8 at concrete inputs. -/
theorem reconcile_build_total_spot :
    reconcile ["LPS-1"] "" = ["LPS-1"] :=
  (reconcile_build_total "x" ["LPS-1"] "6.2.x").2.1 (by decide)

/-- C9: the log lines are concatenated with no separator before the
substring test, so ticket `LPS-1` is counted as found in a log whose two
adjacent lines `"x LPS"` and `"-1 y"` each lack the identifier. -/
theorem reconcile_joins_lines_without_separator :
    getCommits "x LPS\n-1 y" = ["x LPS", "-1 y"] ∧
    strIn "LPS-1" "x LPS" = false ∧
    strIn "LPS-1" "-1 y" = false ∧
    allLogs (getCommits "x LPS\n-1 y") = "x LPS-1 y" ∧
    reconcile ["LPS-1"] "x LPS\n-1 y" = [] := by
  exact ⟨by decide, by decide, by decide, by decide, by decide⟩

/-- C6 (counterexample): looking up an issue key with no connection
established fails with the `None`-dereference error (`AttributeError`), a
different kind of failure from the `SessionNotConnectedError` the claim
names. -/
theorem get_issue_disconnected_error_kind :
    get_issue none (.key "LPE-10001") = .error .attributeErrorNoneType ∧
    PyError.attributeErrorNoneType ≠ PyError.sessionNotConnected := by
  exact ⟨rfl, by decide⟩

/-- C6 (amended): for every issue key, the lookup before `connect` or after
`close` always fails, but with the `None`-dereference `AttributeError`, not
with a named `SessionNotConnectedError`. -/
theorem get_issue_disconnected (k : String) (jira0 : Option JiraDb) :
    get_issue none (.key k) = .error .attributeErrorNoneType ∧
    get_issue (closeSession jira0) (.key k) = .error .attributeErrorNoneType :=
  ⟨rfl, rfl⟩

/-- C1: credential resolution is total and deterministic over all 2^6
combinations of field presence. Writing `truthy f` for field presence:
basic full and OAuth absent gives Basic; OAuth full and basic absent gives
Token; all absent gives Anonymous; exactly one strategy partially populated
fails with that strategy's partial-credentials error; both strategies full
fails with the conflicting-credentials error; and in the remaining region
(both strategies partial) nothing is silently ignored either — the basic
partial-credentials error is raised.  The seven regions cover every
combination. -/
theorem authResolver_total (u p a s c k : String) :
    (truthy u = true → truthy p = true →
     truthy a = false → truthy s = false → truthy c = false → truthy k = false →
      resolveAuth u p a s c k = .ok (.basic u p)) ∧
    (truthy u = false → truthy p = false →
     truthy a = true → truthy s = true → truthy c = true → truthy k = true →
      resolveAuth u p a s c k = .ok (.oauth ⟨a, s, c, k⟩)) ∧
    (truthy u = false → truthy p = false →
     truthy a = false → truthy s = false → truthy c = false → truthy k = false →
      resolveAuth u p a s c k = .ok .anonymous) ∧
    (truthy u ≠ truthy p →
     ((truthy a = true ∧ truthy s = true ∧ truthy c = true ∧ truthy k = true) ∨
      (truthy a = false ∧ truthy s = false ∧ truthy c = false ∧ truthy k = false)) →
      resolveAuth u p a s c k
        = .error (.jiraSearcherError
            "Some, but not all, parameters passed to basic authentication")) ∧
    (truthy u = truthy p →
     (truthy a || truthy s || truthy c || truthy k) = true →
     (truthy a && truthy s && truthy c && truthy k) = false →
      resolveAuth u p a s c k
        = .error (.jiraSearcherError "Some, but not all, parameters passed to OAuth")) ∧
    (truthy u = true → truthy p = true →
     truthy a = true → truthy s = true → truthy c = true → truthy k = true →
      resolveAuth u p a s c k
        = .error (.jiraSearcherError "Parameters given for both basic auth and OAuth")) ∧
    (truthy u ≠ truthy p →
     (truthy a || truthy s || truthy c || truthy k) = true →
     (truthy a && truthy s && truthy c && truthy k) = false →
      resolveAuth u p a s c k
        = .error (.jiraSearcherError
            "Some, but not all, parameters passed to basic authentication")) := by
  cases hu : truthy u <;> cases hp : truthy p <;> cases ha : truthy a <;>
    cases hs : truthy s <;> cases hc : truthy c <;> cases hk : truthy k <;>
    simp [resolveAuth, getBasicAuthParameters, getOAuthParameters, getJiraParameters,
      hu, hp, ha, hs, hc, hk]

/-- Witness for C1: one concrete credential set in each of the seven
regions of the case split. -/
theorem authResolver_total_spot :
    resolveAuth "foo" "bar" "" "" "" "" = .ok (.basic "foo" "bar") ∧
    resolveAuth "" "" "t" "s" "c" "kc" = .ok (.oauth ⟨"t", "s", "c", "kc"⟩) ∧
    resolveAuth "" "" "" "" "" "" = .ok .anonymous ∧
    resolveAuth "foo" "" "t" "s" "c" "kc"
      = .error (.jiraSearcherError
          "Some, but not all, parameters passed to basic authentication") ∧
    resolveAuth "foo" "bar" "t" "" "" ""
      = .error (.jiraSearcherError "Some, but not all, parameters passed to OAuth") ∧
    resolveAuth "foo" "bar" "t" "s" "c" "kc"
      = .error (.jiraSearcherError "Parameters given for both basic auth and OAuth") ∧
    resolveAuth "foo" "" "t" "" "" ""
      = .error (.jiraSearcherError
          "Some, but not all, parameters passed to basic authentication") := by
  refine ⟨(authResolver_total "foo" "bar" "" "" "" "").1
      (by decide) (by decide) (by decide) (by decide) (by decide) (by decide),
    (authResolver_total "" "" "t" "s" "c" "kc").2.1
      (by decide) (by decide) (by decide) (by decide) (by decide) (by decide),
    (authResolver_total "" "" "" "" "" "").2.2.1
      (by decide) (by decide) (by decide) (by decide) (by decide) (by decide),
    (authResolver_total "foo" "" "t" "s" "c" "kc").2.2.2.1 (by decide) (by decide),
    (authResolver_total "foo" "bar" "t" "" "" "").2.2.2.2.1
      (by decide) (by decide) (by decide),
    (authResolver_total "foo" "bar" "t" "s" "c" "kc").2.2.2.2.2.1
      (by decide) (by decide) (by decide) (by decide) (by decide) (by decide),
    (authResolver_total "foo" "" "t" "" "" "").2.2.2.2.2.2
      (by decide) (by decide) (by decide)⟩

/-- An issue whose single link is outward only (its raw dict has an
`'outwardIssue'` entry and no `'inwardIssue'` entry), for C3. -/
def exIssueC3 : Issue :=
  { key := "LPE-2",
    fields := { issuelinks := [{ inwardIssue := none, outwardIssue := some ⟨"LPE-99"⟩ }] } }

def exDbC3 : JiraDb :=
  fun k2 => if k2 = "LPE-2" then some exIssueC3 else none

/-- C3 (counterexample): an outward link does not merely contribute
nothing — it makes the whole expansion fail, because line 136 indexes every
link's raw dict at `'inwardIssue'` and an outward link's dict has no such
key. -/
theorem linkExpansion_outward_raises :
    getRelatedIssuesSet (some exDbC3) [.key "LPE-2"] "LPS"
      = .error (.keyError "inwardIssue") := by
  rfl

/-- C3 (amended): when every link of every retrieved issue carries an
`'inwardIssue'` entry, the expansion succeeds and its result is the
deduplicated union over the source keys of the retained linked keys (those
passing the project test); a link without that entry (an outward link)
instead fails the expansion with a `KeyError`. -/
theorem linkExpansion_set (db : JiraDb) (ks : List String) (project : String)
    (hkeys : ∀ k2 i, db k2 = some i → i.key = k2)
    (hres : ∀ k2 ∈ ks, (db k2).isSome)
    (hlinks : ∀ k2 i, db k2 = some i → ∀ l ∈ i.fields.issuelinks, l.inwardIssue.isSome) :
    ∃ s : Finset String,
      getRelatedIssuesSet (some db) (ks.map IssueOrKey.key) project = .ok s ∧
      ∀ x, x ∈ s ↔ ∃ k2 ∈ ks, ∃ i, db k2 = some i ∧
        ∃ l ∈ i.fields.issuelinks, ∃ ii, l.inwardIssue = some ii ∧ ii.key = x ∧
          (truthy project = false ∨ strStartsWith x project = true) := by
  have hga := get_issues_ok hres
  have hgood : ∀ i ∈ ks.filterMap (fun k2 => db k2), db i.key = some i := by
    intro i hi
    obtain ⟨k2, _, hdbk⟩ := List.mem_filterMap.mp hi
    rw [hkeys k2 i hdbk]
    exact hdbk
  have hlinks2 : ∀ i ∈ ks.filterMap (fun k2 => db k2),
      ∀ l ∈ i.fields.issuelinks, l.inwardIssue.isSome := by
    intro i hi
    obtain ⟨k2, _, hdbk⟩ := List.mem_filterMap.mp hi
    exact hlinks k2 i hdbk
  have hdict : getRelatedIssuesDict (some db) (ks.map IssueOrKey.key) project
      = .ok ((ks.filterMap (fun k2 => db k2)).map (fun i => (i.key, relatedList i project))) := by
    simp [getRelatedIssuesDict, hga, relatedIssuesEntries_ok hgood hlinks2]
  refine ⟨((ks.filterMap (fun k2 => db k2)).map
      (fun i => relatedList i project)).flatten.toFinset, ?_, ?_⟩
  · simp [getRelatedIssuesSet, hdict, Function.comp_def]
  intro x
  simp only [List.mem_toFinset, List.mem_flatten, List.mem_map, List.mem_filterMap]
  constructor
  · rintro ⟨lst, ⟨i, ⟨k2, hk2, hdbk⟩, rfl⟩, hx⟩
    obtain ⟨l, hl, ii, hinw, hkey, hcond⟩ := mem_relatedList.mp hx
    exact ⟨k2, hk2, i, hdbk, l, hl, ii, hinw, hkey, hcond⟩
  · rintro ⟨k2, hk2, i, hdbk, l, hl, ii, hinw, hkey, hcond⟩
    exact ⟨relatedList i project, ⟨i, ⟨k2, hk2, hdbk⟩, rfl⟩,
      mem_relatedList.mpr ⟨l, hl, ii, hinw, hkey, hcond⟩⟩

/-- An issue with a single inward link, for the C3 witness. -/
def exIssueC3w : Issue :=
  { key := "LPE-3",
    fields := { issuelinks := [{ inwardIssue := some ⟨"LPS-41798"⟩, outwardIssue := none }] } }

def exDbC3w : JiraDb :=
  fun k2 => if k2 = "LPE-3" then some exIssueC3w else none

/-- Witness for C3 at a concrete one-issue, one-inward-link database. -/
theorem linkExpansion_set_spot :
    ∃ s : Finset String,
      getRelatedIssuesSet (some exDbC3w) (["LPE-3"].map IssueOrKey.key) "LPS" = .ok s ∧
      ∀ x, x ∈ s ↔ ∃ k2 ∈ ["LPE-3"], ∃ i, exDbC3w k2 = some i ∧
        ∃ l ∈ i.fields.issuelinks, ∃ ii, l.inwardIssue = some ii ∧ ii.key = x ∧
          (truthy "LPS" = false ∨ strStartsWith x "LPS" = true) := by
  refine linkExpansion_set exDbC3w ["LPE-3"] "LPS" ?_ (by decide) ?_
  · intro k2 i h
    by_cases hk : k2 = "LPE-3"
    · subst hk
      simp [exDbC3w] at h
      subst h
      rfl
    · simp [exDbC3w, hk] at h
  · intro k2 i h
    by_cases hk : k2 = "LPE-3"
    · subst hk
      simp [exDbC3w] at h
      subst h
      decide
    · simp [exDbC3w, hk] at h

/-- An issue whose single inward link targets `LPSX-41798`, whose project
part (before the first hyphen) is `LPSX`, not `LPS`, for C5. -/
def exIssueC5 : Issue :=
  { key := "LPE-1",
    fields := { issuelinks := [{ inwardIssue := some ⟨"LPSX-41798"⟩, outwardIssue := none }] } }

def exDbC5 : JiraDb :=
  fun k2 => if k2 = "LPE-1" then some exIssueC5 else none

/-- C5 (counterexample): with target filter `LPS`, the linked key
`LPSX-41798` is retained although its project part is `LPSX ≠ LPS`: the
code filters by `startswith`, not by equality of the part before the first
hyphen. -/
theorem linkFilter_not_projectPart :
    getRelatedIssues (some exDbC5) (.key "LPE-1") "LPS" = .ok ["LPSX-41798"] ∧
    keyProjectPart "LPSX-41798" ≠ "LPS" ∧ truthy "LPS" = true := by
  exact ⟨rfl, by decide, by decide⟩

/-- C5 (amended): a kept linked key is retained iff the filter is empty or
the key *starts with* the filter string (Python `startswith`); equality of
the key's project part with the filter is not required. -/
theorem linkFilter_startswith (db : JiraDb) (k : String) (i : Issue) (project : String)
    (hdb : db k = some i) (hlinks : ∀ l ∈ i.fields.issuelinks, l.inwardIssue.isSome) :
    ∃ res, getRelatedIssues (some db) (.key k) project = .ok res ∧
      ∀ x, x ∈ res ↔ ∃ l ∈ i.fields.issuelinks, ∃ ii, l.inwardIssue = some ii ∧ ii.key = x ∧
        (truthy project = false ∨ strStartsWith x project = true) :=
  ⟨relatedList i project, getRelatedIssues_ok hdb hlinks, fun _ => mem_relatedList⟩

/-- Witness for C5 at the concrete database of the counterexample. -/
theorem linkFilter_startswith_spot :
    ∃ res, getRelatedIssues (some exDbC5) (.key "LPE-1") "LPS" = .ok res ∧
      ∀ x, x ∈ res ↔ ∃ l ∈ exIssueC5.fields.issuelinks, ∃ ii,
        l.inwardIssue = some ii ∧ ii.key = x ∧
        (truthy "LPS" = false ∨ strStartsWith x "LPS" = true) :=
  linkFilter_startswith exDbC5 "LPE-1" exIssueC5 "LPS" (by decide) (by decide)

/-- C10: an `Issue` object passed to `get_issue` is returned unchanged,
whatever the connection state (also when it is `none`). -/
theorem get_issue_object_passthrough (jira : Option JiraDb) (i : Issue) :
    get_issue jira (.obj i) = .ok i :=
  rfl
